/-
Verification of the two scripts in this repository fragment:
  * aten_docgen.py — a reporting script: it parses the native-function
    metadata, filters the functions tagged "canonical" into a dialect, and
    pretty-prints tables of grouped operators and operator schemas;
  * torch/ao/quantization/backend_config/executorch.py — a configuration-table
    builder: it constructs the static BackendConfig for the Executorch
    backend from module-level DTypeConfig constants and six builder
    functions.
The Python data model is shallowly embedded: Python dicts keyed by strings
or patterns become association lists with replace-on-duplicate insertion in
original position (Python dict semantics); framework classes that are not
part of this repository fragment (torchgen records, the backend_config
builder classes) are modelled from the specification, keeping exactly the
fields and methods the two scripts use.
-/
import Mathlib

set_option maxRecDepth 4000

/-! ## Python dict as an association list -/

/-- Insertion into a Python dict: when the key is present its value is
replaced in place (the entry keeps its original position), otherwise the
new entry is appended at the end. -/
def dictInsert {κ α : Type} [DecidableEq κ] (k : κ) (v : α) :
    List (κ × α) → List (κ × α)
  | [] => [(k, v)]
  | p :: rest => if p.1 = k then (k, v) :: rest else p :: dictInsert k v rest

/-- Key lookup in a Python dict modelled as an association list. -/
def dictLookup {κ α : Type} [DecidableEq κ] (k : κ) :
    List (κ × α) → Option α
  | [] => none
  | p :: rest => if p.1 = k then some p.2 else dictLookup k rest

/-! ## torchgen records used by aten_docgen.py

Modelled from the spec: the torchgen model (`FunctionSchema`,
`NativeFunction`, `NativeFunctionsGroup`, `NativeFunctionsViewGroup`) is
host-framework code that is not part of this repository fragment; only the
fields and methods aten_docgen.py reads are modelled, as opaque data the
parser produced. -/

/-- Modelled from the spec: the parsed schema of a native function, keeping
the fields aten_docgen.py reads. `name` stands for the operator name object,
`signature` for the rendering of `func.signature()`, `aliased_return_names`
for the list returned by `func.aliased_return_names()`, and
`is_functional_fn` for the result of `func.is_functional_fn()`. -/
structure FunctionSchema where
  name : String
  signature : String
  aliased_return_names : List (Option String)
  is_functional_fn : Bool
deriving DecidableEq

/-- Modelled from the spec: a parsed native function: its schema and its
tag set. -/
structure NativeFunction where
  func : FunctionSchema
  tags : List String
deriving DecidableEq

/-- Modelled from the spec: a structured native-functions group, keeping the
fields print_tabular reads (`out` and `inplace` may be absent). -/
structure NativeFunctionsGroup where
  functional : NativeFunction
  out : Option NativeFunction
  inplace : Option NativeFunction
deriving DecidableEq

/-- Modelled from the spec: a view group, keeping the fields print_tabular
reads (`view_copy` and `view_inplace` may be absent). -/
structure NativeFunctionsViewGroup where
  view : NativeFunction
  view_copy : Option NativeFunction
  view_inplace : Option NativeFunction
deriving DecidableEq

/-- Modelled from the spec: an element of the list returned by torchgen's
`get_grouped_native_functions`: either an ungrouped function or a
`NativeFunctionsGroup` (the `isinstance` check in Dialect.__init__). -/
inductive GroupedFn
  | single (f : NativeFunction)
  | group (g : NativeFunctionsGroup)
deriving DecidableEq

/-- Modelled from the spec: an element of the list returned by torchgen's
`get_grouped_by_view_native_functions`: either an ungrouped function or a
`NativeFunctionsViewGroup`. -/
inductive ViewGroupedFn
  | single (f : NativeFunction)
  | group (g : NativeFunctionsViewGroup)
deriving DecidableEq

/-! ## Output events

A cell of a printed table is either a string (names and the literal
normalisation marker) or a list of optional aliased return names, which is
what print_schema places in the third column when not every name is None. -/

/-- A cell of a pretty-printed table. -/
inductive Cell
  | str (s : String)
  | optNames (l : List (Option String))
deriving DecidableEq

/-- One observable output action on standard output: a pretty-printed table
(one `tabulate` call) or a plain printed line. -/
inductive OutEvent
  | table (headers : List String) (rows : List (List Cell))
  | line (s : String)
deriving DecidableEq

/-- Whether an output event is a pretty-printed table. -/
def isTableEvent : OutEvent → Bool
  | OutEvent.table _ _ => true
  | OutEvent.line _ => false

/-! ## The Dialect class of aten_docgen.py -/

/-- The state of a `Dialect` object after `__init__` completes. `ops`,
`structured_native_functions` and `view_groups` are Python dicts in
insertion order. -/
structure Dialect where
  name : String
  ops : List (String × NativeFunction)
  structured_native_functions : List (String × NativeFunctionsGroup)
  view_groups : List (String × NativeFunctionsViewGroup)
  _is_functional : Bool

/-- Dialect.__init__ from aten_docgen.py. The three lists produced by the
host framework (`parse_native_yaml(...).native_functions`,
`get_grouped_native_functions(...)`,
`get_grouped_by_view_native_functions(...)`) are taken as inputs, since the
code computing them is framework code outside this repository fragment.
The body is the translation of the source: `ops` collects every parsed
function whose tags contain "canonical", keyed by `function.func.name`;
`structured_native_functions` keeps the groups whose functional name is an
ops key; `view_groups` keeps the view groups whose view name is an ops key;
`_is_functional` starts True and is set False by any op whose schema is not
a functional function. -/
def Dialect.init (name : String) (native_functions : List NativeFunction)
    (grouped_native_functions : List GroupedFn)
    (native_functions_with_view_groups : List ViewGroupedFn) : Dialect :=
  let ops := native_functions.foldl
    (fun acc function =>
      if "canonical" ∈ function.tags then
        dictInsert function.func.name function acc
      else acc) []
  let structured := grouped_native_functions.foldl
    (fun acc g =>
      match g with
      | GroupedFn.group g =>
          if (dictLookup g.functional.func.name ops).isSome then
            dictInsert g.functional.func.name g acc
          else acc
      | GroupedFn.single _ => acc) []
  let viewgs := native_functions_with_view_groups.foldl
    (fun acc g =>
      match g with
      | ViewGroupedFn.group g =>
          if (dictLookup g.view.func.name ops).isSome then
            dictInsert g.view.func.name g acc
          else acc
      | ViewGroupedFn.single _ => acc) []
  let isf := (ops.map Prod.snd).foldl
    (fun b op => if !op.func.is_functional_fn then false else b) true
  { name := name
    ops := ops
    structured_native_functions := structured
    view_groups := viewgs
    _is_functional := isf }

/-- The Python conditional `x.func.name if x else 'N/A'` used for each
optional member of a group row. -/
def pyOptName (o : Option NativeFunction) : Cell :=
  match o with
  | some f => Cell.str f.func.name
  | none => Cell.str "N/A"

/-- Dialect.print_tabular: prints the structured-groups table, a blank
line, then the view-groups table. -/
def Dialect.print_tabular (d : Dialect) : List OutEvent :=
  let table1 := d.structured_native_functions.map
    (fun kv => [Cell.str kv.2.functional.func.name,
                pyOptName kv.2.out, pyOptName kv.2.inplace])
  let table2 := d.view_groups.map
    (fun kv => [Cell.str kv.2.view.func.name,
                pyOptName kv.2.view_copy, pyOptName kv.2.view_inplace])
  [OutEvent.table ["functional", "out", "inplace"] table1,
   OutEvent.line "",
   OutEvent.table ["view", "view_copy", "view_inplace"] table2]

/-- Dialect.print_schema: one table with a row per op; the third column is
the aliased-return-names list, replaced by the string 'N/A' when every
aliased name is None (Python's `all` on the comprehension). -/
def Dialect.print_schema (d : Dialect) : List OutEvent :=
  let table := d.ops.map
    (fun kv =>
      let aliased := kv.2.func.aliased_return_names
      [Cell.str kv.2.func.name, Cell.str kv.2.func.signature,
       if aliased.all (fun a => a.isNone) then Cell.str "N/A"
       else Cell.optNames aliased])
  [OutEvent.table ["op", "schema", "aliased_return_names"] table]

/-- The property Dialect.is_functional returns the flag computed by
__init__. -/
def Dialect.is_functional (d : Dialect) : Bool := d._is_functional

/-- Python's repr of a bool as printed by `print(d.is_functional)`. -/
def pyBoolRepr (b : Bool) : String := if b then "True" else "False"

/-- The module-level script body of aten_docgen.py: construct
`Dialect("aten")` and emit the output of print_tabular, then print_schema,
then the printed is_functional line. -/
def scriptOutput (native_functions : List NativeFunction)
    (grouped_native_functions : List GroupedFn)
    (native_functions_with_view_groups : List ViewGroupedFn) : List OutEvent :=
  let d := Dialect.init "aten" native_functions grouped_native_functions
    native_functions_with_view_groups
  d.print_tabular ++ d.print_schema ++ [OutEvent.line (pyBoolRepr d.is_functional)]

/-! ## External effects -/

/-- An external effect of a script run: reading a file or writing one
output event to standard output. -/
inductive Effect
  | readFile (path : String)
  | writeStdout (e : OutEvent)
deriving DecidableEq

/-- Modelled from the spec: `parse_native_yaml` is torchgen code outside
this repository fragment; per the spec the reporting script's reads are the
two YAML definition files it passes to it. -/
def parse_native_yaml_reads : List Effect :=
  [Effect.readFile "aten/src/ATen/native/native_functions.yaml",
   Effect.readFile "aten/src/ATen/native/tags.yaml"]

/-- The effect trace of one run of the aten_docgen.py script body: the two
YAML reads performed while constructing the Dialect, then one stdout write
per output event. -/
def scriptEffects (native_functions : List NativeFunction)
    (grouped_native_functions : List GroupedFn)
    (native_functions_with_view_groups : List ViewGroupedFn) : List Effect :=
  parse_native_yaml_reads ++
    (scriptOutput native_functions grouped_native_functions
      native_functions_with_view_groups).map Effect.writeStdout

/-! ## The executorch backend configuration

executorch.py builds a `BackendConfig` from module-level `DTypeConfig`
constants and six builder functions. The backend_config classes
(`DTypeConfig`, `DTypeWithConstraints`, `ObservationType`,
`BackendPatternConfig`, `BackendConfig`) live in the host framework's
backend_config module, which is not part of this repository fragment, so
they are modelled from the spec as records with builder-pattern setters
that return the updated record; the Python module references (classes,
functions, method-name strings) that serve as patterns and module slots are
modelled as an enumeration. All numeric constraint values in executorch.py
(-127, 127, 2 ** -12) are exactly representable, so rationals model the
Python floats faithfully here. -/

/-- A Python object reference used by executorch.py as an operator pattern
member or as a module slot of a pattern config: a module class, a
functional, an operator, or a method-name string. -/
inductive PyRef
  | nnLinear
  | fLinear
  | nnqrLinear
  | nnqatLinear
  | nnConv2d
  | fConv2d
  | nnqrConv2d
  | nnqatConv2d
  | nniConvReLU2d
  | nnqatConvReLU2d
  | nnReLU
  | fRelu
  | fRelu6
  | operatorAdd
  | torchAdd
  | fAdaptiveAvgPool2d
  | nnAdaptiveAvgPool2d
  | torchSqueeze
  | nnBatchNorm2d
  | torchCat
  | str (s : String)
deriving DecidableEq

/-- Modelled from the spec: an operator pattern accepted by
`BackendPatternConfig` — a single reference or a 2-tuple (the reversed
fusion patterns such as `(torch.nn.ReLU, convs.root)`). -/
inductive Pattern
  | single (p : PyRef)
  | pair (a b : PyRef)
deriving DecidableEq

/-- Modelled from the spec: the torch dtypes executorch.py mentions. -/
inductive TorchDtype
  | quint8
  | qint8
  | float
  | float16
deriving DecidableEq

/-- Modelled from the spec: the framework's `DTypeWithConstraints` — a
dtype together with optional quantization-range and scale constraints. -/
structure DTypeWithConstraints where
  dtype : TorchDtype
  quant_min_lower_bound : Option Int := none
  quant_max_upper_bound : Option Int := none
  scale_min_lower_bound : Option ℚ := none
  scale_max_upper_bound : Option ℚ := none
deriving DecidableEq

/-- A plain torch dtype passed where `DTypeWithConstraints` is expected:
the framework wraps it with no constraints. -/
def plainDtype (d : TorchDtype) : DTypeWithConstraints :=
  { dtype := d }

/-- Modelled from the spec: the framework's `DTypeConfig` — the
quantization data-type rules for one operator pattern (input, output,
weight and bias dtypes, and the dynamic-quantization flag). -/
structure DTypeConfig where
  input_dtype : Option DTypeWithConstraints := none
  output_dtype : Option DTypeWithConstraints := none
  weight_dtype : Option DTypeWithConstraints := none
  bias_dtype : Option TorchDtype := none
  is_dynamic : Option Bool := none
deriving DecidableEq

/-- Modelled from the spec: the framework's `ObservationType` enum values
used by executorch.py. -/
inductive ObservationType
  | OUTPUT_USE_DIFFERENT_OBSERVER_AS_INPUT
  | OUTPUT_SHARE_OBSERVER_WITH_INPUT
deriving DecidableEq

/-- Modelled from the spec: the fuser method installed by executorch.py —
`_reverse_sequential_wrapper2` applied to the fused module class. -/
inductive FuserMethod
  | reverseSequentialWrapper2 (m : PyRef)
deriving DecidableEq

/-- Modelled from the spec: the framework's `BackendPatternConfig` — the
configuration one operator pattern carries; fields not set by a setter keep
the framework defaults. -/
structure BackendPatternConfig where
  pattern : Pattern
  observation_type : ObservationType :=
    ObservationType.OUTPUT_USE_DIFFERENT_OBSERVER_AS_INPUT
  dtype_configs : List DTypeConfig := []
  root_module : Option PyRef := none
  qat_module : Option PyRef := none
  reference_quantized_module : Option PyRef := none
  fused_module : Option PyRef := none
  fuser_method : Option FuserMethod := none
  _input_type_to_index : List (String × Nat) := []
  _num_tensor_args_to_observation_type : List (Nat × ObservationType) := []
deriving DecidableEq

/-- Modelled from the spec: `BackendPatternConfig(pattern)`. -/
def BackendPatternConfig.init (p : Pattern) : BackendPatternConfig :=
  { pattern := p }

/-- Modelled from the spec: builder setter for observation_type. -/
def BackendPatternConfig.set_observation_type (c : BackendPatternConfig)
    (o : ObservationType) : BackendPatternConfig :=
  { c with observation_type := o }

/-- Modelled from the spec: builder setter for dtype_configs. -/
def BackendPatternConfig.set_dtype_configs (c : BackendPatternConfig)
    (l : List DTypeConfig) : BackendPatternConfig :=
  { c with dtype_configs := l }

/-- Modelled from the spec: builder setter for root_module. -/
def BackendPatternConfig.set_root_module (c : BackendPatternConfig)
    (m : PyRef) : BackendPatternConfig :=
  { c with root_module := some m }

/-- Modelled from the spec: builder setter for qat_module. -/
def BackendPatternConfig.set_qat_module (c : BackendPatternConfig)
    (m : PyRef) : BackendPatternConfig :=
  { c with qat_module := some m }

/-- Modelled from the spec: builder setter for reference_quantized_module. -/
def BackendPatternConfig.set_reference_quantized_module
    (c : BackendPatternConfig) (m : PyRef) : BackendPatternConfig :=
  { c with reference_quantized_module := some m }

/-- Modelled from the spec: builder setter for fused_module. -/
def BackendPatternConfig.set_fused_module (c : BackendPatternConfig)
    (m : PyRef) : BackendPatternConfig :=
  { c with fused_module := some m }

/-- Modelled from the spec: builder setter for fuser_method. -/
def BackendPatternConfig.set_fuser_method (c : BackendPatternConfig)
    (f : FuserMethod) : BackendPatternConfig :=
  { c with fuser_method := some f }

/-- Modelled from the spec: private builder setter for the
input-type-to-index map. -/
def BackendPatternConfig._set_input_type_to_index (c : BackendPatternConfig)
    (m : List (String × Nat)) : BackendPatternConfig :=
  { c with _input_type_to_index := m }

/-- Modelled from the spec: private builder setter for the
num-tensor-args-to-observation-type map. -/
def BackendPatternConfig._set_num_tensor_args_to_observation_type
    (c : BackendPatternConfig) (m : List (Nat × ObservationType)) :
    BackendPatternConfig :=
  { c with _num_tensor_args_to_observation_type := m }

/-- Modelled from the spec: the framework's `BackendConfig` — a name and a
table of pattern configs keyed by their pattern (a Python dict in insertion
order). -/
structure BackendConfig where
  name : String
  configs : List (Pattern × BackendPatternConfig)
deriving DecidableEq

/-- Modelled from the spec: `BackendConfig(name)` starts with an empty
config table. -/
def BackendConfig.init (name : String) : BackendConfig :=
  { name := name, configs := [] }

/-- Modelled from the spec: registering one pattern config stores it under
its pattern, replacing any config already registered for that pattern. -/
def BackendConfig.set_backend_pattern_config (b : BackendConfig)
    (c : BackendPatternConfig) : BackendConfig :=
  { b with configs := dictInsert c.pattern c b.configs }

/-- Modelled from the spec: registering a list of pattern configs registers
each in order. -/
def BackendConfig.set_backend_pattern_configs (b : BackendConfig)
    (cs : List BackendPatternConfig) : BackendConfig :=
  cs.foldl BackendConfig.set_backend_pattern_config b

/-! ## DTYPE CONFIGS (executorch.py, module level) -/

/-- `executorch_weighted_op_int8_dtype_config` from executorch.py. -/
def executorch_weighted_op_int8_dtype_config : DTypeConfig :=
  { input_dtype := some (plainDtype TorchDtype.quint8)
    output_dtype := some (plainDtype TorchDtype.quint8)
    weight_dtype := some (plainDtype TorchDtype.qint8)
    bias_dtype := some TorchDtype.float }

/-- `executorch_default_op_quint8_dtype_config` from executorch.py. -/
def executorch_default_op_quint8_dtype_config : DTypeConfig :=
  { input_dtype := some (plainDtype TorchDtype.quint8)
    output_dtype := some (plainDtype TorchDtype.quint8) }

/-- `executorch_default_dynamic_int8_dtype_config` from executorch.py. -/
def executorch_default_dynamic_int8_dtype_config : DTypeConfig :=
  { input_dtype := some (plainDtype TorchDtype.quint8)
    output_dtype := some (plainDtype TorchDtype.float)
    weight_dtype := some (plainDtype TorchDtype.qint8)
    bias_dtype := some TorchDtype.float
    is_dynamic := some true }

/-- `executorch_default_dynamic_float16_dtype_config` from executorch.py. -/
def executorch_default_dynamic_float16_dtype_config : DTypeConfig :=
  { input_dtype := some (plainDtype TorchDtype.float16)
    output_dtype := some (plainDtype TorchDtype.float)
    weight_dtype := some (plainDtype TorchDtype.float16)
    bias_dtype := some TorchDtype.float
    is_dynamic := some true }

/-- `executorch_act_qint8_scale_min_2_neg_12` from executorch.py: the
xnnpack-compatible activation constraint — qint8 with the scale restricted
to at least `2 ** -12`. -/
def executorch_act_qint8_scale_min_2_neg_12 : DTypeWithConstraints :=
  { dtype := TorchDtype.qint8
    scale_min_lower_bound := some (mkRat 1 4096) }

/-- `executorch_weight_qint8_neg_127_to_127_scale_min_2_neg_12` from
executorch.py: the xnnpack-compatible weight constraint — qint8 restricted
to quantization values in [-127, 127] (excluding -128) and scale at least
`2 ** -12`. -/
def executorch_weight_qint8_neg_127_to_127_scale_min_2_neg_12 :
    DTypeWithConstraints :=
  { dtype := TorchDtype.qint8
    quant_min_lower_bound := some (-127)
    quant_max_upper_bound := some 127
    scale_min_lower_bound := some (mkRat 1 4096) }

/-- `executorch_weighted_op_qint8_symmetric_dtype_config` from
executorch.py. -/
def executorch_weighted_op_qint8_symmetric_dtype_config : DTypeConfig :=
  { input_dtype := some executorch_act_qint8_scale_min_2_neg_12
    output_dtype := some executorch_act_qint8_scale_min_2_neg_12
    weight_dtype := some executorch_weight_qint8_neg_127_to_127_scale_min_2_neg_12
    bias_dtype := some TorchDtype.float }

/-- `executorch_default_op_qint8_symmetric_dtype_config` from
executorch.py. -/
def executorch_default_op_qint8_symmetric_dtype_config : DTypeConfig :=
  { input_dtype := some executorch_act_qint8_scale_min_2_neg_12
    output_dtype := some executorch_act_qint8_scale_min_2_neg_12 }

/-- The six module-level `DTypeConfig` constants of executorch.py, in
source order. -/
def executorch_module_dtype_configs : List DTypeConfig :=
  [executorch_weighted_op_int8_dtype_config,
   executorch_default_op_quint8_dtype_config,
   executorch_default_dynamic_int8_dtype_config,
   executorch_default_dynamic_float16_dtype_config,
   executorch_weighted_op_qint8_symmetric_dtype_config,
   executorch_default_op_qint8_symmetric_dtype_config]

/-! ## BACKEND PATTERN CONFIGS (executorch.py) -/

/-- Modelled from the spec: the fields of `_Conv2dMetadata` (defined in the
framework's _common_operator_config_utils, outside this repository
fragment) that executorch.py reads: the 2d conv module, functional,
reference/qat modules and the fused conv-relu forms. -/
structure _ConvMetadata where
  root : PyRef
  func : PyRef
  reference : PyRef
  qat : PyRef
  relu_qat : PyRef
  fused_conv_relu : PyRef
deriving DecidableEq

/-- Modelled from the spec: `_Conv2dMetadata`, carrying the torch 2d
convolution classes. -/
def _Conv2dMetadata : _ConvMetadata :=
  { root := PyRef.nnConv2d
    func := PyRef.fConv2d
    reference := PyRef.nnqrConv2d
    qat := PyRef.nnqatConv2d
    relu_qat := PyRef.nnqatConvReLU2d
    fused_conv_relu := PyRef.nniConvReLU2d }

/-- `_get_linear_configs` from executorch.py: the linear module config and
the functional linear config. -/
def _get_linear_configs : List BackendPatternConfig :=
  let observation_type := ObservationType.OUTPUT_USE_DIFFERENT_OBSERVER_AS_INPUT
  let dtype_configs : List DTypeConfig :=
    [executorch_weighted_op_qint8_symmetric_dtype_config,
     executorch_weighted_op_int8_dtype_config,
     executorch_default_dynamic_int8_dtype_config,
     executorch_default_dynamic_float16_dtype_config]
  let linear_configs : List BackendPatternConfig := []
  let linear_configs := linear_configs ++
    [BackendPatternConfig.init (Pattern.single PyRef.nnLinear)
      |>.set_observation_type observation_type
      |>.set_dtype_configs dtype_configs
      |>.set_root_module PyRef.nnLinear
      |>.set_reference_quantized_module PyRef.nnqrLinear
      |>.set_qat_module PyRef.nnqatLinear]
  let linear_configs := linear_configs ++
    [BackendPatternConfig.init (Pattern.single PyRef.fLinear)
      |>.set_observation_type observation_type
      |>.set_dtype_configs dtype_configs
      |>._set_input_type_to_index [("weight", 1), ("bias", 2)]]
  linear_configs

/-- `_get_conv_configs` from executorch.py: the seven conv-related configs,
appended for each element of `[_Conv2dMetadata]`. -/
def _get_conv_configs : List BackendPatternConfig :=
  let observation_type := ObservationType.OUTPUT_USE_DIFFERENT_OBSERVER_AS_INPUT
  let dtype_configs : List DTypeConfig :=
    [executorch_weighted_op_qint8_symmetric_dtype_config,
     executorch_weighted_op_int8_dtype_config]
  let conv_configs : List BackendPatternConfig := []
  let conv_configs := [_Conv2dMetadata].foldl
    (fun acc convs => acc ++
      [BackendPatternConfig.init (Pattern.single convs.root)
        |>.set_observation_type observation_type
        |>.set_dtype_configs dtype_configs
        |>.set_root_module convs.root
        |>.set_reference_quantized_module convs.reference
        |>.set_qat_module convs.qat,
       BackendPatternConfig.init (Pattern.single convs.func)
        |>.set_observation_type observation_type
        |>.set_dtype_configs dtype_configs
        |>._set_input_type_to_index [("weight", 1), ("bias", 2)],
       BackendPatternConfig.init (Pattern.pair PyRef.nnReLU convs.root)
        |>.set_dtype_configs dtype_configs
        |>.set_fuser_method (FuserMethod.reverseSequentialWrapper2 convs.fused_conv_relu)
        |>.set_fused_module convs.fused_conv_relu,
       BackendPatternConfig.init (Pattern.pair PyRef.fRelu convs.root)
        |>.set_dtype_configs dtype_configs
        |>.set_fuser_method (FuserMethod.reverseSequentialWrapper2 convs.fused_conv_relu)
        |>.set_fused_module convs.fused_conv_relu,
       BackendPatternConfig.init (Pattern.single convs.fused_conv_relu)
        |>.set_observation_type observation_type
        |>.set_dtype_configs dtype_configs
        |>.set_root_module convs.root
        |>.set_reference_quantized_module convs.reference
        |>.set_qat_module convs.relu_qat,
       BackendPatternConfig.init (Pattern.pair PyRef.nnReLU convs.func)
        |>.set_observation_type observation_type
        |>.set_dtype_configs dtype_configs,
       BackendPatternConfig.init (Pattern.pair PyRef.fRelu convs.func)
        |>.set_observation_type observation_type
        |>.set_dtype_configs dtype_configs]) conv_configs
  conv_configs

/-- `_get_binary_ops_configs` from executorch.py: one config per binary add
op, each carrying the num-tensor-args observation-type map. -/
def _get_binary_ops_configs : List BackendPatternConfig :=
  let dtype_configs : List DTypeConfig :=
    [executorch_default_op_qint8_symmetric_dtype_config,
     executorch_weighted_op_int8_dtype_config]
  let num_tensor_args_map : List (Nat × ObservationType) :=
    [(0, ObservationType.OUTPUT_USE_DIFFERENT_OBSERVER_AS_INPUT),
     (1, ObservationType.OUTPUT_SHARE_OBSERVER_WITH_INPUT),
     (2, ObservationType.OUTPUT_USE_DIFFERENT_OBSERVER_AS_INPUT)]
  [PyRef.operatorAdd, PyRef.torchAdd].foldl
    (fun acc op => acc ++
      [BackendPatternConfig.init (Pattern.single op)
        |>.set_dtype_configs dtype_configs
        |>._set_num_tensor_args_to_observation_type num_tensor_args_map]) []

/-- `_get_share_qparams_ops_configs` from executorch.py: one config per
share-qparams op, each sharing the input observer. -/
def _get_share_qparams_ops_configs : List BackendPatternConfig :=
  let observation_type := ObservationType.OUTPUT_SHARE_OBSERVER_WITH_INPUT
  let dtype_configs : List DTypeConfig :=
    [executorch_default_op_qint8_symmetric_dtype_config,
     executorch_default_op_quint8_dtype_config]
  let share_qparams_ops : List PyRef :=
    [PyRef.fAdaptiveAvgPool2d,
     PyRef.fRelu,
     PyRef.fRelu6,
     PyRef.nnAdaptiveAvgPool2d,
     PyRef.torchSqueeze,
     PyRef.str "permute",
     PyRef.str "reshape",
     PyRef.str "relu",
     PyRef.str "relu_",
     PyRef.str "squeeze",
     PyRef.str "squeeze_"]
  share_qparams_ops.foldl
    (fun acc op => acc ++
      [BackendPatternConfig.init (Pattern.single op)
        |>.set_observation_type observation_type
        |>.set_dtype_configs dtype_configs]) []

/-- `_get_bn_configs` from executorch.py: the batchnorm config. -/
def _get_bn_configs : List BackendPatternConfig :=
  let observation_type := ObservationType.OUTPUT_USE_DIFFERENT_OBSERVER_AS_INPUT
  let dtype_configs : List DTypeConfig :=
    [executorch_default_op_qint8_symmetric_dtype_config,
     executorch_default_op_quint8_dtype_config]
  let bn_configs : List BackendPatternConfig := []
  let bn_configs := bn_configs ++
    [BackendPatternConfig.init (Pattern.single PyRef.nnBatchNorm2d)
      |>.set_observation_type observation_type
      |>.set_dtype_configs dtype_configs]
  bn_configs

/-- `_get_cat_configs` from executorch.py: the torch.cat config. -/
def _get_cat_configs : List BackendPatternConfig :=
  let dtype_configs : List DTypeConfig :=
    [executorch_default_op_qint8_symmetric_dtype_config,
     executorch_default_op_quint8_dtype_config]
  let cat_configs : List BackendPatternConfig := []
  let cat_configs := cat_configs ++
    [BackendPatternConfig.init (Pattern.single PyRef.torchCat)
      |>.set_observation_type ObservationType.OUTPUT_SHARE_OBSERVER_WITH_INPUT
      |>.set_dtype_configs dtype_configs]
  cat_configs

/-- `get_executorch_backend_config` from executorch.py: the BackendConfig
named "executorch" built by registering the six builder groups in order. -/
def get_executorch_backend_config : BackendConfig :=
  BackendConfig.init "executorch"
    |>.set_backend_pattern_configs _get_linear_configs
    |>.set_backend_pattern_configs _get_conv_configs
    |>.set_backend_pattern_configs _get_binary_ops_configs
    |>.set_backend_pattern_configs _get_share_qparams_ops_configs
    |>.set_backend_pattern_configs _get_bn_configs
    |>.set_backend_pattern_configs _get_cat_configs

/-- A call of `get_executorch_backend_config` at a given call index: the
source function takes no arguments and reads only the module-level
constants and the pure builder functions, so every call evaluates the same
builder sequence; the call index cannot influence the result. -/
def get_executorch_backend_config_call (_callIndex : Nat) : BackendConfig :=
  get_executorch_backend_config

/-! ## Constructed configuration objects per script

For the claim that both scripts build framework-native configuration
objects, the configuration objects each script constructs and then prints
or returns are collected per script. -/

/-- A framework-native configuration object of one of the three
backend-configuration types. -/
inductive ConfigObject
  | dtype (d : DTypeConfig)
  | patternConfig (c : BackendPatternConfig)
  | backend (b : BackendConfig)
deriving DecidableEq

/-- The configuration objects executorch.py constructs: its six
module-level DTypeConfig constants, every BackendPatternConfig produced by
its six builder functions, and the BackendConfig that
get_executorch_backend_config returns. -/
def executorch_config_objects : List ConfigObject :=
  executorch_module_dtype_configs.map ConfigObject.dtype ++
    (_get_linear_configs ++ _get_conv_configs ++ _get_binary_ops_configs ++
      _get_share_qparams_ops_configs ++ _get_bn_configs ++
      _get_cat_configs).map ConfigObject.patternConfig ++
    [ConfigObject.backend get_executorch_backend_config]

/-- The configuration objects aten_docgen.py constructs: none — the
reporting script never references DTypeConfig, BackendPatternConfig or
BackendConfig; it only filters and tabulates the parsed NativeFunction
records. -/
def aten_docgen_config_objects : List ConfigObject := []

/-- The effect trace of a call of `get_executorch_backend_config`: the body
only constructs configuration values through the builder setters; it
performs no I/O and assigns no state outside the value it returns, so the
trace is empty. -/
def get_executorch_backend_config_effects : List Effect := []

/-! ## Helper lemmas on Python dict insertion -/

/-- A key is present after a dict insertion exactly when it is the inserted
key or was present before. -/
theorem dictLookup_isSome_dictInsert {κ α : Type} [DecidableEq κ]
    (q k : κ) (v : α) (l : List (κ × α)) :
    (dictLookup q (dictInsert k v l)).isSome ↔ q = k ∨ (dictLookup q l).isSome := by
  induction l with
  | nil =>
    by_cases h : k = q
    · subst h
      simp [dictInsert, dictLookup]
    · have h2 : ¬ q = k := fun hq => h hq.symm
      simp [dictInsert, dictLookup, h, h2]
  | cons p rest ih =>
    by_cases hk : p.1 = k
    · subst hk
      by_cases hq : p.1 = q
      · subst hq
        simp [dictInsert, dictLookup]
      · have h2 : ¬ q = p.1 := fun h => hq h.symm
        simp [dictInsert, dictLookup, hq, h2]
    · by_cases hq : p.1 = q
      · subst hq
        simp [dictInsert, dictLookup, hk]
      · simp [dictInsert, dictLookup, hk, hq, ih]

/-- An entry of a dict after insertion is the inserted entry or one that
was already there. -/
theorem mem_dictInsert {κ α : Type} [DecidableEq κ]
    (kv : κ × α) (k : κ) (v : α) (l : List (κ × α)) :
    kv ∈ dictInsert k v l → kv = (k, v) ∨ kv ∈ l := by
  induction l with
  | nil => simp [dictInsert]
  | cons p rest ih =>
    by_cases hk : p.1 = k
    · simp only [dictInsert, if_pos hk, List.mem_cons]
      tauto
    · simp only [dictInsert, if_neg hk, List.mem_cons]
      intro h
      rcases h with h | h
      · tauto
      · rcases ih h with h | h <;> tauto

/-- The keys present after the canonical-filter loop of Dialect.__init__:
those already in the accumulator and the names of the canonical parsed
functions. -/
theorem opsFold_key (fns : List NativeFunction)
    (acc : List (String × NativeFunction)) (k : String) :
    (dictLookup k (fns.foldl
      (fun acc function =>
        if "canonical" ∈ function.tags then
          dictInsert function.func.name function acc
        else acc) acc)).isSome
      ↔ (dictLookup k acc).isSome ∨
          ∃ f, f ∈ fns ∧ "canonical" ∈ f.tags ∧ f.func.name = k := by
  induction fns generalizing acc with
  | nil => simp
  | cons f fns ih =>
    simp only [List.foldl_cons]
    by_cases h : "canonical" ∈ f.tags
    · rw [if_pos h, ih, dictLookup_isSome_dictInsert]
      constructor
      · rintro ((hk | hacc) | ⟨g, hg, hc, hn⟩)
        · exact Or.inr ⟨f, List.mem_cons_self f fns, h, hk.symm⟩
        · exact Or.inl hacc
        · exact Or.inr ⟨g, List.mem_cons_of_mem f hg, hc, hn⟩
      · rintro (hacc | ⟨g, hg, hc, hn⟩)
        · exact Or.inl (Or.inr hacc)
        · rcases List.mem_cons.mp hg with hgf | hg2
          · subst hgf
            exact Or.inl (Or.inl hn.symm)
          · exact Or.inr ⟨g, hg2, hc, hn⟩
    · rw [if_neg h, ih]
      constructor
      · rintro (hacc | ⟨g, hg, hc, hn⟩)
        · exact Or.inl hacc
        · exact Or.inr ⟨g, List.mem_cons_of_mem f hg, hc, hn⟩
      · rintro (hacc | ⟨g, hg, hc, hn⟩)
        · exact Or.inl hacc
        · rcases List.mem_cons.mp hg with hgf | hg2
          · subst hgf
            exact absurd hc h
          · exact Or.inr ⟨g, hg2, hc, hn⟩

/-- Every entry produced by the canonical-filter loop of Dialect.__init__
is an untouched parsed function, canonical, keyed by its own name. -/
theorem opsFold_values (fns : List NativeFunction)
    (acc : List (String × NativeFunction)) (kv : String × NativeFunction) :
    kv ∈ fns.foldl
      (fun acc function =>
        if "canonical" ∈ function.tags then
          dictInsert function.func.name function acc
        else acc) acc →
    kv ∈ acc ∨ (kv.2 ∈ fns ∧ "canonical" ∈ kv.2.tags ∧ kv.1 = kv.2.func.name) := by
  induction fns generalizing acc with
  | nil => simp
  | cons f fns ih =>
    simp only [List.foldl_cons]
    by_cases h : "canonical" ∈ f.tags
    · rw [if_pos h]
      intro hmem
      rcases ih (dictInsert f.func.name f acc) hmem with hacc | ⟨h1, h2, h3⟩
      · rcases mem_dictInsert kv f.func.name f acc hacc with hkv | hkv
        · subst hkv
          exact Or.inr ⟨List.mem_cons_self f fns, h, rfl⟩
        · exact Or.inl hkv
      · exact Or.inr ⟨List.mem_cons_of_mem f h1, h2, h3⟩
    · rw [if_neg h]
      intro hmem
      rcases ih acc hmem with hacc | ⟨h1, h2, h3⟩
      · exact Or.inl hacc
      · exact Or.inr ⟨List.mem_cons_of_mem f h1, h2, h3⟩

/-- The flag loop of Dialect.__init__ computes the conjunction of the
starting flag with is_functional_fn over the list. -/
theorem isfFold (l : List NativeFunction) (b : Bool) :
    l.foldl (fun b op => if !op.func.is_functional_fn then false else b) b
      = (b && l.all fun op => op.func.is_functional_fn) := by
  induction l generalizing b with
  | nil => simp
  | cons x xs ih =>
    simp only [List.foldl_cons, List.all_cons]
    cases hx : x.func.is_functional_fn
    · rw [show (if (!false) = true then false else b) = false from rfl, ih]
      simp
    · rw [show (if (!true) = true then false else b) = b from rfl, ih]
      simp [hx]

/-- The ops dict a Dialect holds is the canonical-filter fold. -/
theorem Dialect.init_ops (nm : String) (fns : List NativeFunction)
    (g : List GroupedFn) (v : List ViewGroupedFn) :
    (Dialect.init nm fns g v).ops = fns.foldl
      (fun acc function =>
        if "canonical" ∈ function.tags then
          dictInsert function.func.name function acc
        else acc) [] := rfl

/-- The is_functional flag a Dialect holds is the flag fold over the ops
values. -/
theorem Dialect.init_isf (nm : String) (fns : List NativeFunction)
    (g : List GroupedFn) (v : List ViewGroupedFn) :
    (Dialect.init nm fns g v).is_functional
      = ((Dialect.init nm fns g v).ops.map Prod.snd).foldl
          (fun b op => if !op.func.is_functional_fn then false else b) true := rfl

/-! ## Claims -/

/-- Claim C1: get_executorch_backend_config returns a BackendConfig named
"executorch" built by the fixed sequence of setter calls: its config table
holds exactly the backend pattern configs produced by the six group
builders, registered in that order, each keyed by its own operator pattern
and declaring a dtype_configs list for that pattern. -/
theorem executorch_backend_config_fixed_sequence :
    get_executorch_backend_config.name = "executorch"
    ∧ get_executorch_backend_config.configs.map Prod.snd
        = _get_linear_configs ++ _get_conv_configs ++ _get_binary_ops_configs
          ++ _get_share_qparams_ops_configs ++ _get_bn_configs ++ _get_cat_configs
    ∧ get_executorch_backend_config.configs.all
        (fun kv => decide (kv.1 = kv.2.pattern) && !kv.2.dtype_configs.isEmpty) = true :=
  ⟨rfl, rfl, by decide⟩

/-- Claim C2, counterexample: already on the concrete run with empty parsed
input, the script's tabular output is not the two tables of print_tabular —
print_schema contributes a third table. -/
theorem aten_script_three_tables_cex :
    ¬ ((scriptOutput [] [] []).filter isTableEvent
        = (Dialect.init "aten" [] [] []).print_tabular.filter isTableEvent) := by
  decide

/-- Claim C2, amended: the reporting script pretty-prints exactly three
tables, not two — its tabular output is the two tables produced by
print_tabular followed by the one table produced by print_schema. -/
theorem aten_script_tabular_output (fns : List NativeFunction)
    (g : List GroupedFn) (v : List ViewGroupedFn) :
    (scriptOutput fns g v).filter isTableEvent
      = ((Dialect.init "aten" fns g v).print_tabular
          ++ (Dialect.init "aten" fns g v).print_schema).filter isTableEvent
    ∧ ((scriptOutput fns g v).filter isTableEvent).length = 3
    ∧ ((Dialect.init "aten" fns g v).print_tabular.filter isTableEvent).length = 2 :=
  ⟨rfl, rfl, rfl⟩

/-- Claim C3: for every parsed native-function list, Dialect.__init__
produces self.ops by pure filtering — a key is present exactly when some
parsed function with that name has "canonical" among its tags, and every
stored record is one of the parsed functions unmodified, canonical, keyed
by its own name. -/
theorem dialect_ops_pure_filter (nm : String) (fns : List NativeFunction)
    (g : List GroupedFn) (v : List ViewGroupedFn) :
    (∀ k : String, (dictLookup k (Dialect.init nm fns g v).ops).isSome ↔
        ∃ f, f ∈ fns ∧ "canonical" ∈ f.tags ∧ f.func.name = k) ∧
    (∀ kv : String × NativeFunction, kv ∈ (Dialect.init nm fns g v).ops →
        kv.2 ∈ fns ∧ "canonical" ∈ kv.2.tags ∧ kv.1 = kv.2.func.name) := by
  constructor
  · intro k
    rw [Dialect.init_ops, opsFold_key]
    simp [dictLookup]
  · intro kv hkv
    rw [Dialect.init_ops] at hkv
    rcases opsFold_values fns [] kv hkv with h | h
    · simp at h
    · exact h

/-- Claim C4: print_schema emits one table with one row per op in
self.ops, each row holding the op's name, its schema signature and a third
cell that is the string 'N/A' exactly when every aliased return name of
that op is None (and otherwise the aliased-return-names list). -/
theorem dialect_print_schema_rows (nm : String) (fns : List NativeFunction)
    (g : List GroupedFn) (v : List ViewGroupedFn) :
    ∃ rows : List (List Cell),
      (Dialect.init nm fns g v).print_schema
        = [OutEvent.table ["op", "schema", "aliased_return_names"] rows] ∧
      rows.length = (Dialect.init nm fns g v).ops.length ∧
      ∀ (i : Nat) (hi : i < rows.length) (hj : i < (Dialect.init nm fns g v).ops.length),
        ∃ third : Cell,
          rows.get ⟨i, hi⟩ =
            [Cell.str (((Dialect.init nm fns g v).ops.get ⟨i, hj⟩).2.func.name),
             Cell.str (((Dialect.init nm fns g v).ops.get ⟨i, hj⟩).2.func.signature),
             third] ∧
          (third = Cell.str "N/A" ↔
            ∀ a ∈ ((Dialect.init nm fns g v).ops.get ⟨i, hj⟩).2.func.aliased_return_names,
              a = none) ∧
          ((¬ ∀ a ∈ ((Dialect.init nm fns g v).ops.get ⟨i, hj⟩).2.func.aliased_return_names,
              a = none) →
            third = Cell.optNames
              (((Dialect.init nm fns g v).ops.get ⟨i, hj⟩).2.func.aliased_return_names)) := by
  refine ⟨_, rfl, List.length_map _ _, ?_⟩
  intro i hi hj
  refine ⟨if ((Dialect.init nm fns g v).ops.get ⟨i, hj⟩).2.func.aliased_return_names.all
      (fun a => a.isNone) then Cell.str "N/A"
    else Cell.optNames ((Dialect.init nm fns g v).ops.get ⟨i, hj⟩).2.func.aliased_return_names,
    ?_, ?_, ?_⟩
  · simp [List.get_eq_getElem, List.getElem_map]
  · by_cases hall : ((Dialect.init nm fns g v).ops.get ⟨i, hj⟩).2.func.aliased_return_names.all
        (fun a => a.isNone)
    · simp only [if_pos hall, true_iff]
      intro a ha
      have := List.all_eq_true.mp hall a ha
      simpa [Option.isNone_iff_eq_none] using this
    · simp only [if_neg hall]
      constructor
      · intro hcontra
        exact absurd hcontra (by simp)
      · intro hforall
        exact absurd (List.all_eq_true.mpr
          (fun a ha => by simpa [Option.isNone_iff_eq_none] using hforall a ha)) hall
  · intro hnot
    by_cases hall : ((Dialect.init nm fns g v).ops.get ⟨i, hj⟩).2.func.aliased_return_names.all
        (fun a => a.isNone)
    · exact absurd
        (fun a ha => by
          simpa [Option.isNone_iff_eq_none] using List.all_eq_true.mp hall a ha) hnot
    · exact if_neg hall

/-- Claim C5, counterexample: the reporting script constructs no
framework-native configuration object at all — its collection of
constructed DTypeConfig, BackendPatternConfig and BackendConfig objects is
empty, so it does not construct objects of those three types. -/
theorem reporting_script_no_config_objects_cex :
    ¬ ∃ o : ConfigObject, o ∈ aten_docgen_config_objects := by
  simp [aten_docgen_config_objects]

/-- Claim C5, amended: the executorch script constructs configuration
objects of all three framework types — DTypeConfig constants,
BackendPatternConfigs and the returned BackendConfig — while the reporting
script constructs none of them. -/
theorem config_objects_per_script :
    (executorch_config_objects.any (fun o => match o with
        | ConfigObject.dtype _ => true
        | _ => false)) = true
    ∧ (executorch_config_objects.any (fun o => match o with
        | ConfigObject.patternConfig _ => true
        | _ => false)) = true
    ∧ ConfigObject.backend get_executorch_backend_config ∈ executorch_config_objects
    ∧ aten_docgen_config_objects = [] :=
  ⟨by decide, by decide, by decide, rfl⟩

/-- Claim C6: the configuration table is static — any two calls of
get_executorch_backend_config return structurally equal BackendConfig
values, independent of the call index (the function takes no arguments and
reads no mutable state). -/
theorem executorch_backend_config_static (i j : Nat) :
    get_executorch_backend_config_call i = get_executorch_backend_config_call j := rfl

/-- Claim C7: the reporting script's only external effects are reading the
two YAML definition files and writing to standard output, and
get_executorch_backend_config performs no I/O and mutates no outside state
(its effect trace is empty). -/
theorem scripts_effects_bound (fns : List NativeFunction)
    (g : List GroupedFn) (v : List ViewGroupedFn) :
    (∀ e ∈ scriptEffects fns g v,
        e = Effect.readFile "aten/src/ATen/native/native_functions.yaml"
        ∨ e = Effect.readFile "aten/src/ATen/native/tags.yaml"
        ∨ ∃ ev : OutEvent, e = Effect.writeStdout ev)
    ∧ get_executorch_backend_config_effects = [] := by
  constructor
  · intro e he
    simp only [scriptEffects, parse_native_yaml_reads] at he
    rcases List.mem_append.mp he with h | h
    · rcases List.mem_cons.mp h with h1 | h1
      · exact Or.inl h1
      · rcases List.mem_cons.mp h1 with h2 | h2
        · exact Or.inr (Or.inl h2)
        · cases h2
    · rcases List.mem_map.mp h with ⟨ev, _, hev⟩
      exact Or.inr (Or.inr ⟨ev, hev.symm⟩)
  · rfl

/-- Claim C8: after Dialect.__init__ completes, is_functional is True if
and only if every op stored in self.ops satisfies is_functional_fn. -/
theorem dialect_is_functional_iff (nm : String) (fns : List NativeFunction)
    (g : List GroupedFn) (v : List ViewGroupedFn) :
    ((Dialect.init nm fns g v).is_functional = true) ↔
      ∀ kv : String × NativeFunction, kv ∈ (Dialect.init nm fns g v).ops →
        kv.2.func.is_functional_fn = true := by
  rw [Dialect.init_isf, isfFold]
  simp only [Bool.true_and, List.all_eq_true, List.mem_map]
  constructor
  · intro h kv hkv
    exact h kv.2 ⟨kv, hkv, rfl⟩
  · rintro h op ⟨kv, hkv, rfl⟩
    exact h kv hkv

/-- Claim C9: every BackendPatternConfig in the BackendConfig returned by
get_executorch_backend_config has a non-empty dtype_configs list whose
every element is one of the six module-level executorch DTypeConfig
constants. -/
theorem executorch_pattern_dtype_configs_invariant :
    get_executorch_backend_config.configs.all
      (fun kv => !kv.2.dtype_configs.isEmpty &&
        kv.2.dtype_configs.all
          (fun dc => executorch_module_dtype_configs.any (fun c => decide (c = dc)))) = true := by
  decide

/-- Claim C10: the xnnpack-compatible weight constraint fixes
quant_min_lower_bound = -127, quant_max_upper_bound = 127 and
scale_min_lower_bound = 2 ^ -12 exactly on qint8, and both symmetric
DTypeConfigs use the 2 ^ -12-constrained qint8 activation dtype for input
and output (the weighted one also using the constrained weight dtype). -/
theorem executorch_xnnpack_weight_constraints :
    executorch_weight_qint8_neg_127_to_127_scale_min_2_neg_12.quant_min_lower_bound = some (-127)
    ∧ executorch_weight_qint8_neg_127_to_127_scale_min_2_neg_12.quant_max_upper_bound = some 127
    ∧ executorch_weight_qint8_neg_127_to_127_scale_min_2_neg_12.scale_min_lower_bound
        = some ((2 : ℚ) ^ (-12 : ℤ))
    ∧ executorch_weight_qint8_neg_127_to_127_scale_min_2_neg_12.dtype = TorchDtype.qint8
    ∧ executorch_act_qint8_scale_min_2_neg_12.dtype = TorchDtype.qint8
    ∧ executorch_act_qint8_scale_min_2_neg_12.scale_min_lower_bound = some ((2 : ℚ) ^ (-12 : ℤ))
    ∧ executorch_weighted_op_qint8_symmetric_dtype_config.input_dtype
        = some executorch_act_qint8_scale_min_2_neg_12
    ∧ executorch_weighted_op_qint8_symmetric_dtype_config.output_dtype
        = some executorch_act_qint8_scale_min_2_neg_12
    ∧ executorch_weighted_op_qint8_symmetric_dtype_config.weight_dtype
        = some executorch_weight_qint8_neg_127_to_127_scale_min_2_neg_12
    ∧ executorch_default_op_qint8_symmetric_dtype_config.input_dtype
        = some executorch_act_qint8_scale_min_2_neg_12
    ∧ executorch_default_op_qint8_symmetric_dtype_config.output_dtype
        = some executorch_act_qint8_scale_min_2_neg_12 := by
  refine ⟨rfl, rfl, ?_, rfl, rfl, ?_, rfl, rfl, rfl, rfl, rfl⟩ <;>
    · show some (mkRat 1 4096) = _
      rw [Rat.mkRat_eq_div]
      norm_num
